import Mathlib

/-!
Verification of `src/container_api/client_api.py`: a client that queries an
Owlery reasoning endpoint for containers matching a Manchester-syntax OWL
class expression (`matching_containers` / `_mc_helper`), and a helper that
strips a known vendor-name prefix from a result URI (`strateos_id`).

The remote Owlery endpoint is external to the repository; it is modelled as a
function parameter `api : String → OwleryRequest → Except ApiException
InstancesResult` (host, request ↦ outcome).  Python exceptions that the local
code can raise are modelled by `PyError`; a function that can raise returns
`Except PyError α`.
-/

/-- Errors the Python runtime can raise in the modelled code paths:
`TypeError` (e.g. subscripting `None`), `AttributeError` (e.g. calling
`.group` on `None`), and `ValueError` (raised explicitly by `strateos_id`). -/
inductive PyError where
  | typeError (msg : String)
  | attributeError (msg : String)
  | valueError (msg : String)
deriving DecidableEq

/-- The exception type of the external `owlery_client` library
(`owlery_client.ApiException`), carrying a diagnostic message. -/
structure ApiException where
  msg : String
deriving DecidableEq

/-- The structured response of the Owlery `kbs_kb_instances_get` call.  Per the
spec, it carries a field listing the matching instance identifiers, named
`has_instance`; `_mc_helper` subscripts the response with that key. -/
structure InstancesResult where
  has_instance : List String
deriving DecidableEq

/-- The request that `_mc_helper` hands to
`DLQueriesApi.kbs_kb_instances_get`: knowledgebase label, class expression
(`object`), JSON prefix map, and the two boolean flags. -/
structure OwleryRequest where
  kb : String
  object : String
  prefixes : String
  direct : Bool
  include_deprecated : Bool
deriving DecidableEq

/-- The caller-built container specification consumed by
`matching_containers`: a Manchester-syntax query string and a prefix map
(fields `queryString` and `prefixMap` of the Python object). -/
structure ContainerSpec where
  queryString : String
  prefixMap : String
deriving DecidableEq

/-- Lines 87-95 of `client_api.py`: the request assembled inside
`_mc_helper` before the endpoint call.  `object` starts as `container_spec`
and has `" and " + addl_conditions` appended exactly when `addl_conditions`
is not `None`; `direct` is `False` and `include_deprecated` is `True`. -/
def mc_request (container_spec prefix_map : String) (addl_conditions : Option String)
    (kb_name : String) : OwleryRequest :=
  let kb := kb_name
  let object :=
    match addl_conditions with
    | some c => container_spec ++ (" and " ++ c)
    | none => container_spec
  let prefixes := prefix_map
  let direct := false
  let include_deprecated := true
  ⟨kb, object, prefixes, direct, include_deprecated⟩

/-- `_mc_helper` (lines 75-111).  `instances` is initialised to `None`
(`Option.none`); the endpoint call either fills it or raises
`ApiException`, which is caught and only logged.  The function then
evaluates `instances["has_instance"]` unconditionally: on the success path
this yields the response's `has_instance` list, but when `instances` is
still `None` it raises `TypeError: 'NoneType' object is not subscriptable`.
Logging is a side effect with no bearing on the returned value and is not
modelled. -/
def mc_helper (api : String → OwleryRequest → Except ApiException InstancesResult)
    (container_spec prefix_map : String) (addl_conditions : Option String)
    (base_url kb_name : String) : Except PyError (List String) :=
  let instances : Option InstancesResult :=
    match api base_url (mc_request container_spec prefix_map addl_conditions kb_name) with
    | Except.ok r => some r
    | Except.error _ => none
  match instances with
  | some r => Except.ok r.has_instance
  | none => Except.error (PyError.typeError "NoneType object is not subscriptable")

/-- `matching_containers` (lines 26-38): unpacks the container spec's
`queryString` and `prefixMap` and delegates to `_mc_helper`. -/
def matching_containers (api : String → OwleryRequest → Except ApiException InstancesResult)
    (container_spec : ContainerSpec) (base_url kb_name : String)
    (addl_conditions : Option String) : Except PyError (List String) :=
  mc_helper api container_spec.queryString container_spec.prefixMap addl_conditions
    base_url kb_name

/-- Concatenation-map over the characters of a string, used to model
Python's character-for-character string replacements. -/
def concatMapChar (f : Char → List Char) : List Char → List Char
  | [] => []
  | c :: cs => f c ++ concatMapChar f cs

/-- One character under Python's `html.escape` (with the default
`quote=True`): `&`, `<`, `>`, `"` and the apostrophe become HTML entities,
every other character is unchanged.  `html.escape` performs the five
replacements sequentially starting with `&`, which is exactly this
character-wise map. -/
def escapeChar (c : Char) : List Char :=
  if c = '&' then "&amp;".data
  else if c = '<' then "&lt;".data
  else if c = '>' then "&gt;".data
  else if c = '"' then "&quot;".data
  else if c = '\'' then "&#x27;".data
  else [c]

/-- Python's `html.escape(x)` as used on line 43 of `client_api.py`. -/
def htmlEscape (s : String) : String :=
  String.mk (concatMapChar escapeChar s.data)

/-- Python's `.replace(" ", "%20")` on line 43 of `client_api.py`. -/
def percentEncodeSpaces (s : String) : String :=
  String.mk (concatMapChar (fun c => if c = ' ' then "%20".data else [c]) s.data)

/-- The raw vendor names listed on lines 44-60 of `client_api.py`, in their
declared order. -/
def VENDOR_RAW : List String :=
  ["Fisher", "ThermoFisher", "Eppendorf", "Costar", "USA Scientific", "Mesoscale",
   "Chemspeed", "E&K Scientific", "Sumitomo Bakelite Co.", "PerkinElmer", "Labcyte",
   "Greiner", "Corning", "Axygen", "Tradewinds"]

/-- `VENDOR_STRINGS` (lines 42-61): the comprehension
`[html.escape(x).replace(" ", "%20") for x in [...]]`. -/
def VENDOR_STRINGS : List String :=
  VENDOR_RAW.map (fun x => percentEncodeSpaces (htmlEscape x))

/-- `os.path.basename` (POSIX): the substring after the last `/`, the whole
string when no `/` occurs. -/
def basename (s : String) : String :=
  String.mk ((s.data.reverse.takeWhile (fun c => c ≠ '/')).reverse)

/-- `re.match(PREFIX_SPLITER, s)` followed by `.group(1)`, for the pattern
`.*#(.*)` of line 41.  `re.match` anchors at position 0 and `.` does not
match a newline, so the whole match lies in the first line of `s`: the match
succeeds exactly when the first line contains `#`, and the greedy `.*` makes
group 1 the part of the first line after its last `#`.  `none` models the
match object being `None`. -/
def reMatchFragment (s : String) : Option String :=
  let fl := s.data.takeWhile (fun c => c ≠ '\n')
  if fl.contains '#' then
    some (String.mk ((fl.reverse.takeWhile (fun c => c ≠ '#')).reverse))
  else none

/-- The `for x in VENDOR_STRINGS` loop of lines 68-71: for each candidate in
order, `trimmed = vendor_and_id.removeprefix(x)` (drop `x` from the front
when it is a leading substring, else keep the string); the first candidate
with `trimmed != vendor_and_id` returns `trimmed`.  `none` models falling
through to the `raise` on line 72. -/
def scanVendors (vendor_and_id : String) : List String → Option String
  | [] => none
  | x :: rest =>
    let trimmed :=
      if x.data.isPrefixOf vendor_and_id.data then
        String.mk (vendor_and_id.data.drop x.data.length)
      else vendor_and_id
    if trimmed ≠ vendor_and_id then some trimmed else scanVendors vendor_and_id rest

/-- `strateos_id` (lines 64-72).  When the regex match is `None`, the
attribute access `.group(1)` raises `AttributeError`; when no vendor string
matches, line 72 raises `ValueError(f"Unable to extract a strateos ID from
{uri}")`. -/
def strateos_id (uri : String) : Except PyError String :=
  let suffix := basename uri
  match reMatchFragment suffix with
  | none => Except.error (PyError.attributeError "NoneType object has no attribute group")
  | some vendor_and_id =>
    match scanVendors vendor_and_id VENDOR_STRINGS with
    | some trimmed => Except.ok trimmed
    | none =>
      Except.error (PyError.valueError ("Unable to extract a strateos ID from " ++ uri))

/-- `matching_containers` invokes the endpoint exactly once, on the request
built by `mc_request` from its arguments, and post-processes the outcome as
`_mc_helper` does.  This ties the `mc_request` theorems below to the request
actually issued. -/
theorem matching_containers_calls_api
    (api : String → OwleryRequest → Except ApiException InstancesResult)
    (cs : ContainerSpec) (b k : String) (addl : Option String) :
    matching_containers api cs b k addl =
      match api b (mc_request cs.queryString cs.prefixMap addl k) with
      | Except.ok r => Except.ok r.has_instance
      | Except.error _ =>
        Except.error (PyError.typeError "NoneType object is not subscriptable") := by
  unfold matching_containers mc_helper
  cases api b (mc_request cs.queryString cs.prefixMap addl k) <;> rfl

theorem drop_ne_self {α : Type} (cs : List α) (n : Nat) (hn : 0 < n) (hcs : cs ≠ []) :
    cs.drop n ≠ cs := by
  intro h
  have hlen := congrArg List.length h
  rw [List.length_drop] at hlen
  have hpos : 0 < cs.length := List.length_pos.mpr hcs
  omega

/-- Removing a non-empty leading substring changes the string, so the loop
guard `trimmed != vendor_and_id` fires exactly on a genuine prefix match. -/
theorem trim_ne (frag x : String) (hx : x.data.isPrefixOf frag.data = true)
    (hne : x.data ≠ []) : String.mk (frag.data.drop x.data.length) ≠ frag := by
  have hpre : x.data <+: frag.data := List.isPrefixOf_iff_prefix.mp hx
  have hle : x.data.length ≤ frag.data.length := hpre.length_le
  have hxpos : 0 < x.data.length := List.length_pos.mpr hne
  have hfrag : frag.data ≠ [] := by
    intro hf
    rw [hf, List.length_nil] at hle
    omega
  intro h
  have : frag.data.drop x.data.length = frag.data := congrArg String.data h
  exact drop_ne_self frag.data x.data.length hxpos hfrag this

/-- When no candidate in the list is a leading substring of the fragment, the
vendor scan falls through (reaching the `raise`). -/
theorem scanVendors_eq_none (frag : String) (l : List String)
    (h : ∀ x ∈ l, x.data.isPrefixOf frag.data = false) : scanVendors frag l = none := by
  induction l with
  | nil => rfl
  | cons x rest ih =>
    have hx : x.data.isPrefixOf frag.data = false := h x (by simp)
    simp only [scanVendors, hx, if_false, Bool.false_eq_true]
    simp only [ne_eq, not_true_eq_false, if_false]
    exact ih (fun y hy => h y (by simp [hy]))

/-- The vendor scan returns the fragment trimmed by the first matching
candidate: all earlier candidates are skipped, and the scan stops at the
first (non-empty) candidate that is a leading substring. -/
theorem scanVendors_first (frag x : String) (l₂ : List String)
    (hx : x.data.isPrefixOf frag.data = true) (hne : x.data ≠ []) :
    ∀ l₁ : List String, (∀ y ∈ l₁, y.data.isPrefixOf frag.data = false) →
    scanVendors frag (l₁ ++ x :: l₂) = some (String.mk (frag.data.drop x.data.length)) := by
  intro l₁
  induction l₁ with
  | nil =>
    intro _
    have htr := trim_ne frag x hx hne
    rw [List.nil_append]
    simp only [scanVendors]
    rw [if_pos hx, if_pos htr]
  | cons y rest ih =>
    intro h
    have hy : y.data.isPrefixOf frag.data = false := h y (by simp)
    simp only [List.cons_append, scanVendors, hy, Bool.false_eq_true, if_false, ne_eq,
      not_true_eq_false]
    exact ih (fun z hz => h z (by simp [hz]))

/-- Claim C1: the claim states that when the Owlery client raises its
`ApiException`, `matching_containers` does not raise to the caller and
returns a value signalling no result.  The code instead raises: after the
`except` clause swallows the `ApiException` (only logging it), line 111
evaluates `instances["has_instance"]` with `instances` still `None`, which
raises `TypeError: 'NoneType' object is not subscriptable`.  This theorem
evaluates the code at such a failing input. -/
theorem matching_containers_typeerror_on_api_failure :
    matching_containers (fun _ _ => Except.error ⟨"connection refused"⟩)
      ⟨"cont:ClearPlate", ""⟩ "http://localhost:8080" "sd2e-container-catalogs" none =
      Except.error (PyError.typeError "NoneType object is not subscriptable") := rfl

/-- Claim C2: for every class expression string and prefix map, when
`addl_conditions` is supplied the expression placed in the request equals
the original expression, then `" and "`, then `addl_conditions`; when it is
omitted (`None`) the expression equals the original string unchanged. -/
theorem mc_expression_conjunction :
    ∀ (cs pm c kb : String),
      (mc_request cs pm (some c) kb).object = cs ++ " and " ++ c ∧
      (mc_request cs pm none kb).object = cs := by
  intro cs pm c kb
  refine ⟨?_, rfl⟩
  simp [mc_request, String.append_assoc]

/-- Claim C3: whenever the endpoint call succeeds, `matching_containers`
returns exactly the list held in the response's `has_instance` field, in the
same order, with no element added, dropped, reordered or modified. -/
theorem matching_containers_returns_has_instance
    (api : String → OwleryRequest → Except ApiException InstancesResult)
    (cs : ContainerSpec) (b k : String) (addl : Option String) (r : InstancesResult)
    (h : api b (mc_request cs.queryString cs.prefixMap addl k) = Except.ok r) :
    matching_containers api cs b k addl = Except.ok r.has_instance := by
  simp [matching_containers, mc_helper, h]

/-- Witness for claim C3 at a concrete endpoint returning a two-element
instance list. -/
theorem matching_containers_returns_has_instance_witness :
    matching_containers
      (fun _ _ => Except.ok ⟨["https://example.org/cat#FisherABC123",
                              "https://example.org/cat#Corning96WellPlate"]⟩)
      ⟨"cont:ClearPlate", ""⟩ "http://localhost:8080" "sd2e-container-catalogs" none =
      Except.ok ["https://example.org/cat#FisherABC123",
                 "https://example.org/cat#Corning96WellPlate"] :=
  matching_containers_returns_has_instance
    (fun _ _ => Except.ok ⟨["https://example.org/cat#FisherABC123",
                            "https://example.org/cat#Corning96WellPlate"]⟩)
    ⟨"cont:ClearPlate", ""⟩ "http://localhost:8080" "sd2e-container-catalogs" none
    ⟨["https://example.org/cat#FisherABC123",
      "https://example.org/cat#Corning96WellPlate"]⟩ rfl

/-- Claim C4: `strateos_id` on a URI whose fragment is a known vendor name
followed by a catalog id returns the catalog id with the vendor prefix
removed: `"https://example.org/cat#FisherABC123"` yields `"ABC123"` and
`"https://example.org/cat#Corning96WellPlate"` yields `"96WellPlate"`. -/
theorem strateos_id_vendor_examples :
    strateos_id "https://example.org/cat#FisherABC123" = Except.ok "ABC123" ∧
    strateos_id "https://example.org/cat#Corning96WellPlate" = Except.ok "96WellPlate" :=
  ⟨rfl, rfl⟩

/-- Counterexample to claim C5: on a URI whose suffix lacks the `#fragment`
shape, `strateos_id` does NOT fail with the explicit "no strateos ID
extractable" `ValueError` of line 72; the regex match is `None` and the
`.group(1)` call raises an `AttributeError` instead — a different error than
the unknown-vendor case. -/
theorem strateos_id_no_hash_attributeerror :
    strateos_id "https://example.org/NoHashHere" =
      Except.error (PyError.attributeError "NoneType object has no attribute group") := rfl

/-- Claim C5 as amended: for every URI whose suffix does not match the
fragment pattern, `strateos_id` still fails by raising — it never succeeds —
but the error is the `AttributeError` from calling `.group(1)` on `None`,
not the "no strateos ID extractable" `ValueError` raised for an unknown
vendor. -/
theorem strateos_id_no_fragment_raises_attributeerror (uri : String)
    (h : reMatchFragment (basename uri) = none) :
    strateos_id uri =
      Except.error (PyError.attributeError "NoneType object has no attribute group") := by
  simp only [strateos_id, h]

/-- Witness for the amended claim C5 at a URI with no `#` in its suffix. -/
theorem strateos_id_no_fragment_witness :
    strateos_id "https://example.org/plainname" =
      Except.error (PyError.attributeError "NoneType object has no attribute group") :=
  strateos_id_no_fragment_raises_attributeerror "https://example.org/plainname" rfl

/-- Claim C6: for every URI whose `#`-fragment has none of the known vendor
strings as a leading substring, `strateos_id` raises the explicit, catchable
`ValueError` (line 72) to the caller rather than returning a value. -/
theorem strateos_id_unknown_vendor_valueerror (uri frag : String)
    (hfrag : reMatchFragment (basename uri) = some frag)
    (hnone : ∀ x ∈ VENDOR_STRINGS, x.data.isPrefixOf frag.data = false) :
    strateos_id uri =
      Except.error (PyError.valueError ("Unable to extract a strateos ID from " ++ uri)) := by
  simp only [strateos_id, hfrag, scanVendors_eq_none frag VENDOR_STRINGS hnone]

/-- Witness for claim C6 at `"https://example.org/cat#UnknownVendorXYZ"`. -/
theorem strateos_id_unknown_vendor_witness :
    strateos_id "https://example.org/cat#UnknownVendorXYZ" =
      Except.error (PyError.valueError
        "Unable to extract a strateos ID from https://example.org/cat#UnknownVendorXYZ") := by
  have h := strateos_id_unknown_vendor_valueerror "https://example.org/cat#UnknownVendorXYZ"
    "UnknownVendorXYZ" rfl (by decide)
  rw [h]
  rfl

/-- Claim C7: `strateos_id` scans `VENDOR_STRINGS` in its declared order and
returns the fragment with the FIRST listed vendor string (HTML-escaped,
spaces `%20`-encoded) that is a leading substring of the fragment removed:
whenever the vendor table splits as `l₁ ++ x :: l₂` with `x` matching and
every entry of `l₁` not matching, the result is the fragment minus `x`. -/
theorem strateos_id_first_vendor_match (uri frag x : String) (l₁ l₂ : List String)
    (hfrag : reMatchFragment (basename uri) = some frag)
    (hsplit : VENDOR_STRINGS = l₁ ++ x :: l₂)
    (hx : x.data.isPrefixOf frag.data = true)
    (hbefore : ∀ y ∈ l₁, y.data.isPrefixOf frag.data = false) :
    strateos_id uri = Except.ok (String.mk (frag.data.drop x.data.length)) := by
  have hmem : x ∈ VENDOR_STRINGS := by
    rw [hsplit]
    simp
  have hall : ∀ v ∈ VENDOR_STRINGS, v.data ≠ [] := by decide
  have hne : x.data ≠ [] := hall x hmem
  have hscan : scanVendors frag VENDOR_STRINGS =
      some (String.mk (frag.data.drop x.data.length)) := by
    rw [hsplit]
    exact scanVendors_first frag x l₂ hx hne l₁ hbefore
  simp only [strateos_id, hfrag, hscan]

/-- Witness for claim C7: on fragment `"ThermoFisherX96"`, the first entry
`"Fisher"` does not match (it is not a leading substring), the second entry
`"ThermoFisher"` does, and the result is `"X96"`. -/
theorem strateos_id_first_vendor_match_witness :
    strateos_id "https://example.org/cat#ThermoFisherX96" = Except.ok "X96" := by
  have h := strateos_id_first_vendor_match "https://example.org/cat#ThermoFisherX96"
    "ThermoFisherX96" "ThermoFisher" ["Fisher"]
    ["Eppendorf", "Costar", "USA%20Scientific", "Mesoscale", "Chemspeed",
     "E&amp;K%20Scientific", "Sumitomo%20Bakelite%20Co.", "PerkinElmer", "Labcyte",
     "Greiner", "Corning", "Axygen", "Tradewinds"]
    rfl (by decide) (by decide) (by decide)
  rw [h]
  rfl

/-- Claim C8: for every invocation, the request issued to the reasoning
endpoint carries the fixed parameters `direct = false` and
`include_deprecated = true`, regardless of the caller's inputs. -/
theorem mc_request_fixed_flags :
    ∀ (cs pm kb : String) (addl : Option String),
      (mc_request cs pm addl kb).direct = false ∧
      (mc_request cs pm addl kb).include_deprecated = true := by
  intro cs pm kb addl
  exact ⟨rfl, rfl⟩

/-- Claim C9: when `addl_conditions` is the empty string (not `None`), the
conjunction text is still appended — the expression sent equals the original
followed by `" and "` and nothing more; the append decision tests for
non-`None`, not for non-empty. -/
theorem mc_empty_addl_conditions_appended :
    ∀ (cs pm kb : String), (mc_request cs pm (some "") kb).object = cs ++ " and " := by
  intro cs pm kb
  show cs ++ (" and " ++ "") = cs ++ " and "
  rfl

/-- Claim C10: when the URI's `#`-fragment is exactly a known vendor string,
`strateos_id` returns the empty string as the catalog identifier rather than
raising an extraction error. -/
theorem strateos_id_exact_vendor_empty_id :
    strateos_id "https://example.org/cat#Fisher" = Except.ok "" := rfl
